import Mathlib

/-!
# Sellio marketplace backend — shallow embedding

A shallow embedding of the negotiation-to-transaction lifecycle engine of the
Sellio marketplace backend (TypeScript/Express/Drizzle on Postgres), covering:

* `placeBid`                (src/controllers/bid.controller.ts)
* `acceptOffer`             (src/controllers/auth.controller.ts)
* `confirmBuy`              (buy controller)
* `proposeMeetup`, `acceptMeetup`, `markAsSold`, `cancelTransaction`
                            (src/controllers/transaction.controller.ts,
                             first generation, the one the routes use)
* `expireBidsJob`           (src/jobs/expireBids.job.ts)
* `expireTransactionsJob`   (src/jobs/expireTransactions.job.ts)

Modelling conventions:

* The database is a record of lists of rows; `uuid` primary keys are modelled
  by a `nextId : Nat` counter.  Timestamps are `Int` milliseconds.
* Monetary amounts are kept in the string form the database stores
  (`varchar` / `numeric` columns surface as strings in the JS driver);
  `parseFloat` maps them to `Option ℚ` where `none` models JavaScript `NaN`.
  The comparison operators mirror JS semantics: every comparison with `NaN`
  is false, and `x % 0` is `NaN` (so `x % 0 !== 0` is true).
* `ORDER BY bid_amount DESC LIMIT 1` sorts a `varchar` column, i.e. by byte
  order of the strings, not numerically; `selectHighest` mirrors that.
* Fire-and-forget side effects (socket emits, push notifications, SMS,
  blockchain mirror, chat messages) and write-only audit fields
  (`createdAt`, `updatedAt`, `cancelledAt`, `respondedAt`, …) are outside the
  engine's state and are omitted; per the architecture they never affect the
  primary operation's outcome.
-/

namespace Sellio

/-! ## JavaScript numbers (restricted to the values the engine handles) -/

/-- A JavaScript number: `none` models `NaN`. (The amounts the engine
computes with are exact decimals, modelled in `ℚ`.) -/
abbrev JsNum := Option ℚ

def jsLt : JsNum → JsNum → Bool
  | some a, some b => decide (a < b)
  | _, _ => false

def jsLe : JsNum → JsNum → Bool
  | some a, some b => decide (a ≤ b)
  | _, _ => false

def jsSub : JsNum → JsNum → JsNum
  | some a, some b => some (a - b)
  | _, _ => none

def jsAdd : JsNum → JsNum → JsNum
  | some a, some b => some (a + b)
  | _, _ => none

/-- JS `a % b` on the nonnegative operands the engine uses:
`x % 0` is `NaN`, and `NaN` propagates. -/
def jsMod : JsNum → JsNum → JsNum
  | some a, some b => if b = 0 then none else some (a - b * ((a / b).floor : ℚ))
  | _, _ => none

/-- JS `x !== 0` for a number `x`; note `NaN !== 0` is true. -/
def jsNeZero : JsNum → Bool
  | some a => decide (a ≠ 0)
  | none => true

/-- JS `x > 0` for a number `x` (false on `NaN`). -/
def jsPos : JsNum → Bool
  | some a => decide (0 < a)
  | none => false

/-- Value of a digit character. -/
def digitsToNat (l : List Char) : Nat :=
  l.foldl (fun n c => 10 * n + (c.toNat - 48)) 0

/-- `parseFloat` on the canonical nonnegative decimal numerals that
`Number.prototype.toString` produces for the stored amounts
(digits, optionally a dot and digits); anything else is `NaN`.  -/
def parseFloat (s : String) : JsNum :=
  match s.data.splitOn '.' with
  | [ip] =>
      if !ip.isEmpty && ip.all Char.isDigit then some (digitsToNat ip) else none
  | [ip, fp] =>
      if !ip.isEmpty && !fp.isEmpty && ip.all Char.isDigit && fp.all Char.isDigit then
        some ((digitsToNat ip : ℚ) + (digitsToNat fp : ℚ) / (10 ^ fp.length : ℚ))
      else none
  | _ => none

/-- Byte-wise (C-collation) string comparison, the order Postgres uses on the
`varchar` amount columns. -/
def charListLt : List Char → List Char → Bool
  | [], [] => false
  | [], _ :: _ => true
  | _ :: _, [] => false
  | a :: as, b :: bs =>
      if a.toNat < b.toNat then true
      else if b.toNat < a.toNat then false
      else charListLt as bs

def strLt (a b : String) : Bool := charListLt a.data b.data

/-! ## Data model (db/connection.ts schema, fields the engine reads) -/

structure Product where
  id : Nat
  sellerId : Nat
  price : String
  saleType : String
  minimumBid : Option String
  biddingEndsAt : Option Int
  status : String
  soldTo : Option Nat
  deriving Repr, DecidableEq

structure Bid where
  id : Nat
  productId : Nat
  bidderId : Nat
  bidAmount : String
  status : String
  deriving Repr, DecidableEq

structure Offer where
  id : Nat
  productId : Nat
  buyerId : Nat
  sellerId : Nat
  offerAmount : String
  status : String
  deriving Repr, DecidableEq

structure Buy where
  id : Nat
  productId : Nat
  buyerId : Nat
  sellerId : Nat
  purchasePrice : String
  status : String
  deriving Repr, DecidableEq

structure Transaction where
  id : Nat
  offerId : Option Nat
  buyId : Option Nat
  bidId : Option Nat
  productId : Nat
  buyerId : Nat
  sellerId : Nat
  agreedPrice : String
  originalPrice : String
  status : String
  meetupStatus : String
  scheduledMeetupAt : Option Int
  meetupLocation : Option String
  meetupProposedBy : Option Nat
  sellerConfirmedCompletion : Bool
  referenceNumber : Option String
  expiresAt : Option Int
  deriving Repr, DecidableEq

structure Conversation where
  id : Nat
  productId : Option Nat
  participant1Id : Nat
  participant2Id : Nat
  offerId : Option Nat
  buyId : Option Nat
  bidId : Option Nat
  transactionId : Option Nat
  status : String
  deriving Repr, DecidableEq

/-- The transactional store. -/
structure DB where
  users : List Nat
  products : List Product
  bids : List Bid
  offers : List Offer
  buys : List Buy
  txns : List Transaction
  convs : List Conversation
  nextId : Nat
  deriving Repr, DecidableEq

/-- `AppError(message, httpStatus)` from the error middleware. -/
structure AppError where
  message : String
  statusCode : Nat
  deriving Repr, DecidableEq

/-- `SELECT ... WHERE id = i LIMIT 1`. -/
def findById {α : Type} (getId : α → Nat) (i : Nat) (l : List α) : Option α :=
  l.find? (fun x => getId x == i)

/-- `UPDATE ... SET ... WHERE id = i`. -/
def updById {α : Type} (getId : α → Nat) (i : Nat) (f : α → α) (l : List α) : List α :=
  l.map (fun x => if getId x = i then f x else x)

def productById (st : DB) (i : Nat) : Option Product := findById Product.id i st.products
def offerById (st : DB) (i : Nat) : Option Offer := findById Offer.id i st.offers
def buyById (st : DB) (i : Nat) : Option Buy := findById Buy.id i st.buys
def bidById (st : DB) (i : Nat) : Option Bid := findById Bid.id i st.bids
def txnById (st : DB) (i : Nat) : Option Transaction := findById Transaction.id i st.txns

/-! ## Bid placement (bid.controller.ts, `placeBid`) -/

/-- The row `ORDER BY bid_amount DESC LIMIT 1` returns: the first row whose
`bid_amount` is maximal in byte-wise string order (the column is `varchar`). -/
def selectHighest (l : List Bid) : Option Bid :=
  l.foldl
    (fun acc b =>
      match acc with
      | none => some b
      | some m => if strLt m.bidAmount b.bidAmount then some b else some m)
    none

def insertBid (st : DB) (productId userId : Nat) (amount : String) : DB :=
  { st with
    bids := st.bids ++ [⟨st.nextId, productId, userId, amount, "active"⟩],
    nextId := st.nextId + 1 }

/-- `placeBid` from bid.controller.ts.  Validation ladder and the
current-highest-bid read are verbatim from the source; the interpolated parts
of the error messages are dropped. -/
def placeBid (st : DB) (userId productId : Nat) (bidAmount : String) (now : Int) :
    Except AppError DB :=
  if bidAmount = "" then .error ⟨"Bid amount is required", 400⟩ else
  match productById st productId with
  | none => .error ⟨"Product not found", 404⟩
  | some product =>
    if product.saleType ≠ "bidding" then
      .error ⟨"This product is not available for bidding", 400⟩ else
    if (match product.biddingEndsAt with
        | some e => decide (e < now)
        | none => false) then
      .error ⟨"Bidding has ended for this product", 400⟩ else
    if product.sellerId = userId then
      .error ⟨"You cannot bid on your own product", 400⟩ else
    let productPrice := parseFloat product.price
    let bidValue := parseFloat bidAmount
    let minimumIncrement : JsNum :=
      match product.minimumBid with
      | some s => if s = "" then some 0 else parseFloat s
      | none => some 0
    if jsLt bidValue productPrice then
      .error ⟨"Bid amount must be at least the starting price", 400⟩ else
    match selectHighest (st.bids.filter (fun b => b.productId == productId)) with
    | some highestBid =>
      let currentHighestBid := parseFloat highestBid.bidAmount
      if jsLe bidValue currentHighestBid then
        .error ⟨"Bid amount must be higher than current highest bid", 400⟩
      else
        let difference := jsSub bidValue currentHighestBid
        if jsLt difference minimumIncrement then
          .error ⟨"Bid must be at least the minimum increment higher than current bid", 400⟩
        else if jsNeZero (jsMod difference minimumIncrement) then
          .error ⟨"Bid must follow minimum increment", 400⟩
        else
          .ok (insertBid
            { st with
              bids := updById Bid.id highestBid.id
                (fun b => { b with status := "outbid" }) st.bids }
            productId userId bidAmount)
    | none =>
      let minimumFirstBid := jsAdd productPrice minimumIncrement
      if jsLt bidValue minimumFirstBid then
        .error ⟨"First bid must be at least starting price plus minimum increment", 400⟩
      else
        let difference := jsSub bidValue productPrice
        if jsPos minimumIncrement && jsNeZero (jsMod difference minimumIncrement) then
          .error ⟨"Bid must follow minimum increment from starting price", 400⟩
        else
          .ok (insertBid st productId userId bidAmount)

/-! ## Offer acceptance (auth.controller.ts, `acceptOffer`) -/

/-- `acceptOffer` from auth.controller.ts.  Note: no `Product.status` guard,
and the product row itself is never written. -/
def acceptOffer (st : DB) (userId offerId : Nat) (now : Int) : Except AppError DB :=
  match offerById st offerId with
  | none => .error ⟨"Offer not found", 404⟩
  | some offer =>
    if offer.sellerId ≠ userId then
      .error ⟨"Not authorized to accept this offer", 403⟩ else
    if offer.status ≠ "pending" then
      .error ⟨"Offer is not pending", 400⟩ else
    match productById st offer.productId with
    | none => .error ⟨"Product not found", 404⟩
    | some product =>
      let st1 := { st with
        offers := updById Offer.id offerId (fun o => { o with status := "accepted" }) st.offers }
      let txn : Transaction :=
        { id := st.nextId, offerId := some offer.id, buyId := none, bidId := none,
          productId := offer.productId, buyerId := offer.buyerId, sellerId := offer.sellerId,
          agreedPrice := offer.offerAmount, originalPrice := product.price,
          status := "active", meetupStatus := "not_scheduled",
          scheduledMeetupAt := none, meetupLocation := none, meetupProposedBy := none,
          sellerConfirmedCompletion := false, referenceNumber := none,
          expiresAt := some (now + 86400000) }
      let st2 := { st1 with txns := st1.txns ++ [txn], nextId := st.nextId + 1 }
      let st3 :=
        match st2.convs.find? (fun c => c.offerId == some offerId) with
        | some conversation =>
          { st2 with
            convs := updById Conversation.id conversation.id
              (fun c => { c with transactionId := some txn.id }) st2.convs }
        | none => st2
      .ok st3

/-! ## Buy confirmation (buy controller, `confirmBuy`) -/

/-- `confirmBuy` from the buy controller.  Unlike `acceptOffer` it does guard
on `Product.status`, but it too never writes the product row. -/
def confirmBuy (st : DB) (userId buyId : Nat) (now : Int) : Except AppError DB :=
  match buyById st buyId with
  | none => .error ⟨"Buy request not found", 404⟩
  | some buy =>
    if buy.sellerId ≠ userId then
      .error ⟨"Not authorized to confirm this purchase", 403⟩ else
    if buy.status ≠ "pending" then
      .error ⟨"Buy request is not pending", 400⟩ else
    match productById st buy.productId with
    | none => .error ⟨"Product not found", 404⟩
    | some product =>
      if product.status ≠ "active" then
        .error ⟨"Product is not available", 400⟩ else
      let st1 := { st with
        buys := updById Buy.id buyId
          (fun b => { b with status := "confirmed_pending_meetup" }) st.buys }
      let txn : Transaction :=
        { id := st.nextId, offerId := none, buyId := some buy.id, bidId := none,
          productId := buy.productId, buyerId := buy.buyerId, sellerId := buy.sellerId,
          agreedPrice := buy.purchasePrice, originalPrice := product.price,
          status := "active", meetupStatus := "not_scheduled",
          scheduledMeetupAt := none, meetupLocation := none, meetupProposedBy := none,
          sellerConfirmedCompletion := false, referenceNumber := none,
          expiresAt := some (now + 86400000) }
      let st2 := { st1 with txns := st1.txns ++ [txn], nextId := st.nextId + 1 }
      let st3 :=
        match st2.convs.find? (fun c => c.buyId == some buyId) with
        | some conversation =>
          { st2 with
            convs := updById Conversation.id conversation.id
              (fun c => { c with transactionId := some txn.id }) st2.convs }
        | none => st2
      .ok st3

/-! ## Meetup coordinator (transaction.controller.ts) -/

/-- `proposeMeetup`: requires an active transaction and a future time; it never
inspects the current `meetupStatus`. -/
def proposeMeetup (st : DB) (userId transactionId : Nat) (scheduledMeetupAt : Int)
    (meetupLocation meetupCoordinates : String) (now : Int) : Except AppError DB :=
  if meetupLocation = "" then .error ⟨"Meetup location is required", 400⟩ else
  if meetupCoordinates = "" then .error ⟨"Meetup coordinates are required", 400⟩ else
  match txnById st transactionId with
  | none => .error ⟨"Transaction not found", 404⟩
  | some t =>
    if t.buyerId ≠ userId ∧ t.sellerId ≠ userId then
      .error ⟨"Unauthorized access to transaction", 403⟩ else
    if t.status ≠ "active" then
      .error ⟨"Cannot propose meetup for inactive transaction", 400⟩ else
    if scheduledMeetupAt ≤ now then
      .error ⟨"Meetup time must be in the future", 400⟩ else
    .ok { st with
      txns := updById Transaction.id transactionId
        (fun x => { x with
          scheduledMeetupAt := some scheduledMeetupAt,
          meetupLocation := some meetupLocation,
          meetupStatus := "scheduled",
          meetupProposedBy := some userId }) st.txns }

/-- `acceptMeetup`: requires `meetupStatus == "scheduled"`. -/
def acceptMeetup (st : DB) (userId transactionId : Nat) : Except AppError DB :=
  match txnById st transactionId with
  | none => .error ⟨"Transaction not found", 404⟩
  | some t =>
    if t.buyerId ≠ userId ∧ t.sellerId ≠ userId then
      .error ⟨"Unauthorized access to transaction", 403⟩ else
    if t.meetupStatus ≠ "scheduled" then
      .error ⟨"No meetup proposal to accept", 400⟩ else
    .ok { st with
      txns := updById Transaction.id transactionId
        (fun x => { x with meetupStatus := "confirmed" }) st.txns }

/-- `markAsSold`: seller only, confirmed meetup, active transaction.
`referenceNumber` is the value of the random reference-number generator,
passed in as a parameter. -/
def markAsSold (st : DB) (userId transactionId : Nat) (referenceNumber : String) :
    Except AppError DB :=
  match txnById st transactionId with
  | none => .error ⟨"Transaction not found", 404⟩
  | some t =>
    if t.sellerId ≠ userId then
      .error ⟨"Only the seller can mark the transaction as sold", 403⟩ else
    if t.meetupStatus ≠ "confirmed" then
      .error ⟨"Transaction must have a confirmed meetup before marking as sold", 400⟩ else
    if t.status ≠ "active" then
      .error ⟨"Cannot mark inactive transaction as sold", 400⟩ else
    let st1 := { st with
      txns := updById Transaction.id transactionId
        (fun x => { x with
          status := "completed",
          sellerConfirmedCompletion := true,
          referenceNumber := some referenceNumber }) st.txns }
    let st2 := { st1 with
      products := updById Product.id t.productId
        (fun p => { p with status := "sold", soldTo := some t.buyerId }) st1.products }
    let st3 :=
      match t.offerId with
      | some oid =>
        { st2 with offers := updById Offer.id oid (fun o => { o with status := "completed" }) st2.offers }
      | none => st2
    let st4 :=
      match t.buyId with
      | some bid =>
        { st3 with buys := updById Buy.id bid (fun b => { b with status := "completed" }) st3.buys }
      | none => st3
    let st5 :=
      match t.bidId with
      | some bd =>
        { st4 with bids := updById Bid.id bd (fun b => { b with status := "completed" }) st4.bids }
      | none => st4
    .ok st5

/-- `cancelTransaction`: participant only, active transaction; blocked from one
hour before a scheduled meetup onwards.  The stored free-text reason fields are
not modelled (`customReason` only feeds them). -/
def cancelTransaction (st : DB) (userId transactionId : Nat)
    (reason _customReason : String) (now : Int) : Except AppError DB :=
  if reason = "" then .error ⟨"Cancellation reason is required", 400⟩ else
  match txnById st transactionId with
  | none => .error ⟨"Transaction not found", 404⟩
  | some t =>
    if t.buyerId ≠ userId ∧ t.sellerId ≠ userId then
      .error ⟨"Unauthorized access to transaction", 403⟩ else
    if t.status ≠ "active" then
      .error ⟨"Cannot cancel inactive transaction", 400⟩ else
    if (match t.scheduledMeetupAt with
        | some m => decide (m - 3600000 ≤ now)
        | none => false) then
      .error ⟨"Cannot cancel transaction within 1 hour of scheduled meetup", 400⟩ else
    let newStatus := if t.buyerId = userId then "cancelled_by_buyer" else "cancelled_by_seller"
    let st1 := { st with
      txns := updById Transaction.id transactionId
        (fun x => { x with status := newStatus }) st.txns }
    let st2 :=
      match t.offerId with
      | some oid =>
        { st1 with offers := updById Offer.id oid (fun o => { o with status := "cancelled" }) st1.offers }
      | none => st1
    let st3 :=
      match t.buyId with
      | some bid =>
        { st2 with buys := updById Buy.id bid (fun b => { b with status := newStatus }) st2.buys }
      | none => st2
    let st4 :=
      match t.bidId with
      | some bd =>
        { st3 with bids := updById Bid.id bd (fun b => { b with status := "cancelled" }) st3.bids }
      | none => st3
    .ok { st4 with
      products := updById Product.id t.productId
        (fun p => { p with status := "active" }) st4.products }

/-! ## Scheduled resolver: expire transactions (jobs/expireTransactions.job.ts) -/

/-- Per-row body of the expire-transactions sweep. -/
def expireTxn (st : DB) (t : Transaction) : DB :=
  let st1 := { st with
    txns := updById Transaction.id t.id (fun x => { x with status := "expired" }) st.txns }
  let st2 :=
    match t.offerId with
    | some oid =>
      { st1 with offers := updById Offer.id oid (fun o => { o with status := "expired" }) st1.offers }
    | none => st1
  let st3 :=
    match t.buyId with
    | some bid =>
      { st2 with buys := updById Buy.id bid (fun b => { b with status := "expired" }) st2.buys }
    | none => st2
  let st4 :=
    match t.bidId with
    | some bd =>
      { st3 with bids := updById Bid.id bd (fun b => { b with status := "expired" }) st3.bids }
    | none => st3
  { st4 with
    products := updById Product.id t.productId
      (fun p => { p with status := "active" }) st4.products }

/-- One run of the expire-transactions sweep: selects active transactions whose
`scheduledMeetupAt` lies more than 24 hours in the past (SQL `<` on a nullable
column: rows with `NULL scheduledMeetupAt` are never selected), then processes
each row.  `expiresAt` is not consulted. -/
def expireTransactionsJob (st : DB) (now : Int) : DB :=
  let selected := st.txns.filter (fun t =>
    t.status == "active" &&
    (match t.scheduledMeetupAt with
     | some m => decide (m < now - 86400000)
     | none => false))
  selected.foldl expireTxn st

/-! ## Scheduled resolver: close auctions (jobs/expireBids.job.ts) -/

/-- Selection predicate of the auction-close sweep. -/
def expiredBiddingProduct (now : Int) (p : Product) : Bool :=
  p.saleType == "bidding" && p.status == "active" &&
  (match p.biddingEndsAt with
   | some e => decide (e < now)
   | none => false)

/-- Per-product body of the auction-close sweep.  The highest bid is again the
`ORDER BY bid_amount DESC LIMIT 1` row of the `varchar` column.  A missing
winner row (`if (!winner) continue`) leaves the product untouched. -/
def processExpiredProduct (now : Int) (st : DB) (product : Product) : DB :=
  match selectHighest (st.bids.filter (fun b => b.productId == product.id)) with
  | none =>
    { st with
      products := updById Product.id product.id
        (fun p => { p with status := "expired" }) st.products }
  | some highestBid =>
    if st.users.contains highestBid.bidderId then
      let st1 := { st with
        bids := updById Bid.id highestBid.id (fun b => { b with status := "won" }) st.bids }
      let st2 := { st1 with
        bids := st1.bids.map (fun (b : Bid) =>
          if b.productId == product.id && b.status == "active" then
            { b with status := "lost" }
          else b) }
      let txn : Transaction :=
        { id := st2.nextId, offerId := none, buyId := none, bidId := some highestBid.id,
          productId := product.id, buyerId := highestBid.bidderId, sellerId := product.sellerId,
          agreedPrice := highestBid.bidAmount, originalPrice := product.price,
          status := "active", meetupStatus := "not_scheduled",
          scheduledMeetupAt := none, meetupLocation := none, meetupProposedBy := none,
          sellerConfirmedCompletion := false, referenceNumber := none,
          expiresAt := some (now + 86400000) }
      let st3 := { st2 with txns := st2.txns ++ [txn], nextId := st2.nextId + 1 }
      let st4 := { st3 with
        products := updById Product.id product.id
          (fun p => { p with status := "in_transaction" }) st3.products }
      match st4.convs.find? (fun (c : Conversation) =>
          c.productId == some product.id &&
          c.participant1Id == highestBid.bidderId &&
          c.participant2Id == product.sellerId) with
      | none =>
        { st4 with
          convs := st4.convs ++
            [(⟨st4.nextId, some product.id, highestBid.bidderId, product.sellerId,
              none, none, some highestBid.id, some txn.id, "active"⟩ : Conversation)],
          nextId := st4.nextId + 1 }
      | some conversation =>
        { st4 with
          convs := updById Conversation.id conversation.id
            (fun c => { c with bidId := some highestBid.id, transactionId := some txn.id })
            st4.convs }
    else st

/-- One run of the auction-close sweep: reads the list of expired bidding
products once, then processes each. -/
def expireBidsJob (st : DB) (now : Int) : DB :=
  (st.products.filter (expiredBiddingProduct now)).foldl (processExpiredProduct now) st

/-! ## Observation helpers -/

/-- Whether a request succeeded (HTTP 2xx) rather than threw an `AppError`. -/
def succeeds (r : Except AppError DB) : Bool :=
  match r with
  | .ok _ => true
  | .error _ => false

instance {ε α : Type} [DecidableEq ε] [DecidableEq α] : DecidableEq (Except ε α)
  | .ok a, .ok b =>
      if h : a = b then isTrue (by rw [h])
      else isFalse (fun hc => by cases hc; exact h rfl)
  | .ok _, .error _ => isFalse (fun hc => Except.noConfusion hc)
  | .error _, .ok _ => isFalse (fun hc => Except.noConfusion hc)
  | .error e, .error e2 =>
      if h : e = e2 then isTrue (by rw [h])
      else isFalse (fun hc => by cases hc; exact h rfl)

/-- Transactions that reference a product and are `active` (the quantity the
one-active-transaction-per-product invariant counts). -/
def activeTxnsFor (st : DB) (productId : Nat) : List Transaction :=
  st.txns.filter (fun t => t.productId == productId && t.status == "active")

/-! ## Concrete states used by witnesses and counterexamples -/

/-- A transaction on which no meetup was ever proposed, created long ago
(its `expiresAt` deadline, 86400000, is far in the past at the times the
witness evaluates the sweep). -/
def txnC10 : Transaction :=
  ⟨100, some 20, none, none, 10, 2, 1, "90", "100", "active", "not_scheduled",
    none, none, none, false, none, some 86400000⟩

def stC10 : DB :=
  { users := [1, 2], products := [⟨10, 1, "100", "negotiable", none, none, "active", none⟩],
    bids := [], offers := [⟨20, 10, 2, 1, "90", "accepted"⟩], buys := [],
    txns := [txnC10], convs := [], nextId := 200 }

/-- An active transaction whose meetup is already `confirmed`. -/
def stC9 : DB :=
  { users := [1, 2], products := [⟨10, 1, "100", "negotiable", none, none, "active", none⟩],
    bids := [], offers := [⟨20, 10, 2, 1, "90", "accepted"⟩], buys := [],
    txns := [⟨100, some 20, none, none, 10, 2, 1, "90", "100", "active", "confirmed",
      some 500000, some "Park", some 1, false, none, some 86400000⟩],
    convs := [], nextId := 200 }

/-- `stC9` after the buyer re-proposes a meetup: `meetupStatus` went back from
`confirmed` to `scheduled`. -/
def stC9x : DB :=
  { stC9 with
    txns := [⟨100, some 20, none, none, 10, 2, 1, "90", "100", "active", "scheduled",
      some 900000, some "Cafe", some 2, false, none, some 86400000⟩] }

/-- An offer-originated active transaction with a confirmed meetup
(seller 1, buyer 2). -/
def txnC7 : Transaction :=
  ⟨100, some 20, none, none, 10, 2, 1, "90", "100", "active", "confirmed",
    some 500000, some "Park", some 2, false, none, some 86400000⟩

def stC7 : DB :=
  { users := [1, 2], products := [⟨10, 1, "100", "negotiable", none, none, "in_transaction", none⟩],
    bids := [], offers := [⟨20, 10, 2, 1, "90", "accepted"⟩], buys := [],
    txns := [txnC7], convs := [], nextId := 200 }

/-- An offer-originated active transaction with a meetup scheduled at
t = 10000000 (seller 1, buyer 2). -/
def txnC8 : Transaction :=
  ⟨100, some 20, none, none, 10, 2, 1, "90", "100", "active", "scheduled",
    some 10000000, some "Park", some 2, false, none, some 86400000⟩

def stC8 : DB :=
  { users := [1, 2], products := [⟨10, 1, "100", "negotiable", none, none, "in_transaction", none⟩],
    bids := [], offers := [⟨20, 10, 2, 1, "90", "accepted"⟩], buys := [],
    txns := [txnC8], convs := [], nextId := 200 }

/-- An active product with a pending offer from buyer 2 to seller 1. -/
def stC1 : DB :=
  { users := [1, 2], products := [⟨10, 1, "100", "negotiable", none, none, "active", none⟩],
    bids := [], offers := [⟨20, 10, 2, 1, "90", "pending"⟩], buys := [],
    txns := [], convs := [], nextId := 100 }

/-- `stC1` after the seller accepts the offer: the offer is accepted and one
transaction exists, but the product's status is still `active`. -/
def stC1x : DB :=
  { stC1 with
    offers := [⟨20, 10, 2, 1, "90", "accepted"⟩],
    txns := [⟨100, some 20, none, none, 10, 2, 1, "90", "100", "active", "not_scheduled",
      none, none, none, false, none, some 86400000⟩],
    nextId := 101 }

/-- A product already `in_transaction` (offer 21 was accepted, transaction 100
is active) that still has a second pending offer 20 from another buyer. -/
def stC2 : DB :=
  { users := [1, 2, 3],
    products := [⟨10, 1, "100", "negotiable", none, none, "in_transaction", none⟩],
    bids := [],
    offers := [⟨21, 10, 2, 1, "100", "accepted"⟩, ⟨20, 10, 3, 1, "95", "pending"⟩],
    buys := [],
    txns := [⟨100, some 21, none, none, 10, 2, 1, "100", "100", "active", "not_scheduled",
      none, none, none, false, none, some 86400000⟩],
    convs := [], nextId := 200 }

/-- A pending buy request on a product that is already `in_transaction`. -/
def stC2b : DB :=
  { users := [1, 2, 3],
    products := [⟨10, 1, "100", "fixed", none, none, "in_transaction", none⟩],
    bids := [], offers := [],
    buys := [⟨40, 10, 3, 1, "100", "pending"⟩],
    txns := [⟨100, none, none, none, 10, 2, 1, "100", "100", "active", "not_scheduled",
      none, none, none, false, none, some 86400000⟩],
    convs := [], nextId := 200 }

/-- A bidding product with starting price 100 and minimum increment 10, open
for bids, with no bids yet. -/
def stC4w : DB :=
  { users := [1, 2, 3],
    products := [⟨10, 1, "100", "bidding", some "10", some 1000000, "active", none⟩],
    bids := [], offers := [], buys := [], txns := [], convs := [], nextId := 100 }

/-- A bidding product whose `minimumBid` is the string "0" (accepted by
`createProduct`, which only rejects falsy values), with no bids yet. -/
def stC4 : DB :=
  { users := [1, 2, 3],
    products := [⟨10, 1, "100", "bidding", some "0", some 1000000, "active", none⟩],
    bids := [], offers := [], buys := [], txns := [], convs := [], nextId := 100 }

/-- The same zero-increment bidding product with a current high bid of 110. -/
def stC3 : DB :=
  { users := [1, 2, 3],
    products := [⟨10, 1, "100", "bidding", some "0", some 1000000, "active", none⟩],
    bids := [⟨30, 10, 2, "110", "active"⟩],
    offers := [], buys := [], txns := [], convs := [], nextId := 100 }

/-- A bidding product with price 100, increment 10 and a current high bid of
110 placed by user 2. -/
def stC3w : DB :=
  { users := [1, 2, 3],
    products := [⟨10, 1, "100", "bidding", some "10", some 1000000, "active", none⟩],
    bids := [⟨30, 10, 2, "110", "active"⟩],
    offers := [], buys := [], txns := [], convs := [], nextId := 100 }

/-- A bidding product: starting price 80, increment 10, auction ends at
t = 1000000; no bids yet. -/
def stC5 : DB :=
  { users := [1, 2, 3],
    products := [⟨10, 1, "80", "bidding", some "10", some 1000000, "active", none⟩],
    bids := [], offers := [], buys := [], txns := [], convs := [], nextId := 100 }

/-- `stC5` after user 2 bids 90. -/
def stC5b : DB :=
  { stC5 with
    bids := [⟨100, 10, 2, "90", "active"⟩],
    nextId := 101 }

/-- `stC5b` after user 3 bids 100 (a valid raise: 100 > 90, step 10). -/
def stC5c : DB :=
  { stC5 with
    bids := [⟨100, 10, 2, "90", "outbid"⟩, ⟨101, 10, 3, "100", "active"⟩],
    nextId := 102 }

/-- `stC5c` after the auction-close sweep runs at t = 2000000. -/
def stC5d : DB :=
  { stC5 with
    products := [⟨10, 1, "80", "bidding", some "10", some 1000000, "in_transaction", none⟩],
    bids := [⟨100, 10, 2, "90", "won"⟩, ⟨101, 10, 3, "100", "lost"⟩],
    txns := [⟨102, none, none, some 100, 10, 2, 1, "90", "80", "active", "not_scheduled",
      none, none, none, false, none, some 88400000⟩],
    convs := [⟨103, some 10, 2, 1, none, none, some 100, some 102, "active"⟩],
    nextId := 104 }

end Sellio

namespace Sellio

/-! ## Library lemmas about the row helpers -/

theorem findById_updById_self {α : Type} (getId : α → Nat) (i : Nat) (f : α → α)
    (hf : ∀ x, getId (f x) = getId x) (l : List α) :
    findById getId i (updById getId i f l) = (findById getId i l).map f := by
  induction l with
  | nil => rfl
  | cons a l ih =>
    simp only [findById, updById, List.map_cons] at *
    by_cases h : getId a = i
    · rw [if_pos h, List.find?_cons_of_pos _ (by simp [hf a, h]),
        List.find?_cons_of_pos _ (by simp [h])]
      rfl
    · rw [if_neg h, List.find?_cons_of_neg _ (by simp [h]),
        List.find?_cons_of_neg _ (by simp [h])]
      exact ih

theorem findById_updById_ne {α : Type} (getId : α → Nat) (i j : Nat) (f : α → α)
    (hf : ∀ x, getId (f x) = getId x) (l : List α) (h : j ≠ i) :
    findById getId j (updById getId i f l) = findById getId j l := by
  induction l with
  | nil => rfl
  | cons a l ih =>
    simp only [findById, updById, List.map_cons] at *
    by_cases ha : getId a = i
    · rw [if_pos ha, List.find?_cons_of_neg _ (by simp [hf a, ha]; exact fun hc => h hc.symm),
        List.find?_cons_of_neg _ (by simp [ha]; exact fun hc => h hc.symm)]
      exact ih
    · rw [if_neg ha]
      by_cases hb : getId a = j
      · rw [List.find?_cons_of_pos _ (by simp [hb]), List.find?_cons_of_pos _ (by simp [hb])]
      · rw [List.find?_cons_of_neg _ (by simp [hb]), List.find?_cons_of_neg _ (by simp [hb])]
        exact ih

theorem findById_id {α : Type} (getId : α → Nat) (i : Nat) (l : List α) (x : α)
    (h : findById getId i l = some x) : getId x = i := by
  have := List.find?_some h
  simpa using this

theorem mem_of_findById {α : Type} (getId : α → Nat) (i : Nat) (l : List α) (x : α)
    (h : findById getId i l = some x) : x ∈ l :=
  List.mem_of_find?_eq_some h

/-- Fold invariance: a property preserved by every step of a sweep holds of the
sweep's result. -/
theorem foldl_preserve {β : Type} (P : DB → Prop) (step : DB → β → DB) (l : List β) :
    ∀ st : DB, (∀ st2 b, b ∈ l → P st2 → P (step st2 b)) → P st → P (l.foldl step st) := by
  induction l with
  | nil => intro st _ hst; simpa using hst
  | cons b l ih =>
    intro st h hst
    simp only [List.foldl_cons]
    exact ih (step st b) (fun st2 c hc hp => h st2 c (by simp [hc]) hp)
      (h st b (by simp) hst)

/-! ## Arithmetic lemmas about the JS remainder check -/

theorem ratFloor_eq_intFloor (q : ℚ) : (Rat.floor q : ℤ) = ⌊q⌋ := by
  rw [Rat.floor_def', Rat.floor_def]

/-- The increment check `difference % minimumIncrement !== 0` passes exactly
when the difference is an integer multiple of the (nonzero) increment. -/
theorem jsMod_eq_zero_iff (d i : ℚ) (hi : i ≠ 0) :
    (jsMod (some d) (some i) = some 0) ↔ ∃ k : ℤ, d = (k : ℚ) * i := by
  simp only [jsMod, if_neg hi, Option.some.injEq]
  constructor
  · intro h
    exact ⟨Rat.floor (d / i), by linear_combination h⟩
  · rintro ⟨k, rfl⟩
    have hdiv : ((k : ℚ) * i) / i = (k : ℚ) := by field_simp
    rw [hdiv, ratFloor_eq_intFloor, Int.floor_intCast]
    ring

theorem le_of_pos_multiple (d i : ℚ) (hipos : 0 < i) (hd : 0 < d)
    (h : ∃ k : ℤ, d = (k : ℚ) * i) : i ≤ d := by
  obtain ⟨k, rfl⟩ := h
  have hk : 0 < (k : ℚ) := by nlinarith [hd, hipos]
  have hk1 : (1 : ℚ) ≤ (k : ℚ) := by
    have : (0 : ℤ) < k := by exact_mod_cast hk
    exact_mod_cast this
  calc i = 1 * i := by ring
    _ ≤ (k : ℚ) * i := by
        exact mul_le_mul_of_nonneg_right hk1 hipos.le

/-- A member of a list with no duplicate ids is what the lookup by its id
returns. -/
theorem findById_of_mem_nodup {α : Type} (getId : α → Nat) (l : List α) (t : α)
    (hmem : t ∈ l) (hnodup : (l.map getId).Nodup) : findById getId (getId t) l = some t := by
  induction l with
  | nil => cases hmem
  | cons a l ih =>
    rw [List.map_cons] at hnodup
    have hnd := List.nodup_cons.mp hnodup
    rcases List.mem_cons.mp hmem with rfl | hmem2
    · exact List.find?_cons_of_pos _ (by simp)
    · have ha : getId a ≠ getId t := by
        intro hc
        exact hnd.1 (hc ▸ List.mem_map_of_mem getId hmem2)
      rw [findById, List.find?_cons_of_neg _ (by simp [ha])]
      exact ih hmem2 hnd.2

/-- Only the transactions table changes through the per-row body of the
expire-transactions sweep, and only at the processed row's id. -/
theorem expireTxn_txns (st : DB) (s : Transaction) :
    (expireTxn st s).txns =
      updById Transaction.id s.id (fun x => { x with status := "expired" }) st.txns := by
  simp only [expireTxn]
  cases ho : s.offerId <;> cases hb : s.buyId <;> cases hbd : s.bidId <;> simp [ho, hb, hbd]

/-! ## Lemmas for the auction-close sweep (C6) -/

theorem selectHighest_go_mem :
    ∀ (l : List Bid) (acc : Option Bid) (b : Bid),
      l.foldl
        (fun acc b =>
          match acc with
          | none => some b
          | some m => if strLt m.bidAmount b.bidAmount then some b else some m)
        acc = some b →
      b ∈ l ∨ acc = some b := by
  intro l
  induction l with
  | nil => intro acc b h; exact Or.inr h
  | cons a l ih =>
    intro acc b h
    rcases ih _ b h with hmem | hacc
    · exact Or.inl (List.mem_cons_of_mem _ hmem)
    · rcases acc with _ | m
      · simp only at hacc
        obtain rfl := Option.some.inj hacc
        exact Or.inl (List.mem_cons_self _ _)
      · simp only at hacc
        split at hacc
        · obtain rfl := Option.some.inj hacc
          exact Or.inl (List.mem_cons_self _ _)
        · exact Or.inr hacc

theorem selectHighest_mem (l : List Bid) (b : Bid) (h : selectHighest l = some b) :
    b ∈ l := by
  rcases selectHighest_go_mem l none b h with hmem | hacc
  · exact hmem
  · exact Option.noConfusion hacc

/-- A map that fixes every element satisfying a predicate and preserves the
predicate's value leaves the filtered sublist unchanged. -/
theorem filter_map_congr {α : Type} (l : List α) (g : α → α) (pr : α → Bool)
    (h1 : ∀ x ∈ l, pr x = true → g x = x)
    (h2 : ∀ x ∈ l, pr (g x) = pr x) :
    (l.map g).filter pr = l.filter pr := by
  induction l with
  | nil => rfl
  | cons a l ih =>
    have hrec := ih (fun x hx => h1 x (by simp [hx])) (fun x hx => h2 x (by simp [hx]))
    simp only [List.map_cons, List.filter_cons]
    rw [h2 a (by simp)]
    cases hpa : pr a with
    | true => simp [h1 a (by simp) hpa, hrec]
    | false => simp [hrec]

theorem map_getId_updById {α : Type} (getId : α → Nat) (i : Nat) (f : α → α)
    (hf : ∀ x, getId (f x) = getId x) (l : List α) :
    (updById getId i f l).map getId = l.map getId := by
  unfold updById
  rw [List.map_map]
  apply List.map_congr_left
  intro x _
  by_cases h : getId x = i <;> simp [h, hf x]

/-- The per-product body of the auction-close sweep never changes the set of
product ids. -/
theorem processExpiredProduct_products_idmap (now : Int) (s : DB) (q : Product) :
    (processExpiredProduct now s q).products.map Product.id = s.products.map Product.id := by
  simp only [processExpiredProduct]
  split
  · rw [map_getId_updById] <;>
      first
        | exact fun x => rfl
        | rfl
  · split
    · split <;>
        (rw [map_getId_updById] <;>
          first
            | exact fun x => rfl
            | rfl)
    · rfl

/-- Processing a product with a different id does not touch this product's
row or its transactions. -/
theorem processExpiredProduct_other (now : Int) (pid : Nat) (s : DB) (q : Product)
    (hne : q.id ≠ pid) :
    findById Product.id pid (processExpiredProduct now s q).products =
      findById Product.id pid s.products ∧
    (processExpiredProduct now s q).txns.filter (fun t => t.productId == pid) =
      s.txns.filter (fun t => t.productId == pid) := by
  simp only [processExpiredProduct]
  split
  · refine ⟨?_, rfl⟩
    rw [findById_updById_ne] <;>
      first
        | rfl
        | exact fun x => rfl
        | exact fun hc => hne hc.symm
  · split
    · constructor
      · split <;>
          (rw [findById_updById_ne] <;>
            first
              | rfl
              | exact fun x => rfl
              | exact fun hc => hne hc.symm)
      · split <;> simp [List.filter_append, hne]
    · exact ⟨rfl, rfl⟩

theorem map_getId_map {α : Type} (getId : α → Nat) (g : α → α)
    (hg : ∀ x, getId (g x) = getId x) (l : List α) :
    (l.map g).map getId = l.map getId := by
  rw [List.map_map]
  apply List.map_congr_left
  intro x _
  exact hg x

/-- Processing a product with a different id preserves the users table, the
bid ids, this product's bids, this product's row and this product's
transactions. -/
theorem processExpiredProduct_inv (now : Int) (pid : Nat) (s : DB) (q : Product)
    (hne : q.id ≠ pid)
    (hnodupB : (s.bids.map Bid.id).Nodup) :
    (processExpiredProduct now s q).users = s.users ∧
    (processExpiredProduct now s q).bids.map Bid.id = s.bids.map Bid.id ∧
    (processExpiredProduct now s q).bids.filter (fun b => b.productId == pid) =
      s.bids.filter (fun b => b.productId == pid) ∧
    findById Product.id pid (processExpiredProduct now s q).products =
      findById Product.id pid s.products ∧
    (processExpiredProduct now s q).txns.filter (fun t => t.productId == pid) =
      s.txns.filter (fun t => t.productId == pid) := by
  obtain ⟨h4, h5⟩ := processExpiredProduct_other now pid s q hne
  refine ⟨?_, ?_, ?_, h4, h5⟩
  · simp only [processExpiredProduct]
    split
    · rfl
    · split
      · split <;> rfl
      · rfl
  · simp only [processExpiredProduct]
    split
    · rfl
    · rename_i w hw
      split
      · have hid1 : (updById Bid.id w.id (fun (b : Bid) => { b with status := "won" })
            s.bids).map Bid.id = s.bids.map Bid.id :=
          map_getId_updById Bid.id w.id (fun (b : Bid) => { b with status := "won" })
            (fun x => rfl) s.bids
        have hid2 : ((updById Bid.id w.id (fun (b : Bid) => { b with status := "won" })
              s.bids).map (fun (b : Bid) =>
                if b.productId == q.id && b.status == "active" then
                  { b with status := "lost" } else b)).map Bid.id =
            (updById Bid.id w.id (fun (b : Bid) => { b with status := "won" })
              s.bids).map Bid.id :=
          map_getId_map Bid.id _
            (fun x => by
              by_cases h : (x.productId == q.id && x.status == "active") = true <;> simp [h]) _
        split <;> exact hid2.trans hid1
      · rfl
  · simp only [processExpiredProduct]
    split
    · rfl
    · rename_i w hw
      split
      · have hwmem := selectHighest_mem _ _ hw
        have hwb : w ∈ s.bids := (List.mem_filter.mp hwmem).1
        have hwpid : w.productId = q.id := by
          simpa using (List.mem_filter.mp hwmem).2
        have hstep1 : (updById Bid.id w.id (fun (b : Bid) => { b with status := "won" })
              s.bids).filter (fun b => b.productId == pid) =
            s.bids.filter (fun b => b.productId == pid) := by
          apply filter_map_congr
          · intro x hx hpx
            have hxp : x.productId = pid := by simpa using hpx
            have hxw : ¬ Bid.id x = w.id := by
              intro hc
              have hxeq : x = w := List.inj_on_of_nodup_map hnodupB hx hwb hc
              rw [hxeq] at hxp
              exact hne (hxp ▸ hwpid.symm ▸ rfl)
            rw [if_neg hxw]
          · intro x _
            by_cases h : Bid.id x = w.id <;> simp [h]
        have hstep2 : ((updById Bid.id w.id (fun (b : Bid) => { b with status := "won" })
              s.bids).map (fun (b : Bid) =>
                if b.productId == q.id && b.status == "active" then
                  { b with status := "lost" } else b)).filter
              (fun b => b.productId == pid) =
            (updById Bid.id w.id (fun (b : Bid) => { b with status := "won" })
              s.bids).filter (fun b => b.productId == pid) := by
          apply filter_map_congr
          · intro x _ hpx
            have hxp : x.productId = pid := by simpa using hpx
            have hcond : ¬(x.productId == q.id && x.status == "active") = true := by
              simp [hxp]
              intro hc
              exact absurd hc.symm hne
            rw [if_neg hcond]
          · intro x _
            by_cases h : (x.productId == q.id && x.status == "active") = true <;> simp [h]
        split <;> exact hstep2.trans hstep1
      · rfl

/-- Processing a selected product whose highest-bid row has an existing
bidder: the product's row turns `in_transaction` and exactly one new
transaction for it is appended. -/
theorem processExpiredProduct_self (now : Int) (s : DB) (p : Product) (w : Bid)
    (hw : selectHighest (s.bids.filter (fun b => b.productId == p.id)) = some w)
    (huser : s.users.contains w.bidderId = true) :
    findById Product.id p.id (processExpiredProduct now s p).products =
      (findById Product.id p.id s.products).map
        (fun x => { x with status := "in_transaction" }) ∧
    ((processExpiredProduct now s p).txns.filter
        (fun t => t.productId == p.id)).length =
      (s.txns.filter (fun t => t.productId == p.id)).length + 1 := by
  simp only [processExpiredProduct, hw, huser, if_true]
  constructor
  · split <;>
      exact findById_updById_self Product.id p.id
        (fun x => { x with status := "in_transaction" }) (fun x => rfl) _
  · split <;> simp [List.filter_append]

/-! ## C10 -/

/-- C10: an active transaction on which no meetup was ever proposed
(`scheduledMeetupAt` unset) is never touched by the expire-transactions
sweep, no matter how late the sweep runs and regardless of its `expiresAt`
deadline: the sweep's selection only looks at `status` and
`scheduledMeetupAt`. -/
theorem claim_C10_unscheduled_never_expired (st : DB) (now : Int) (t : Transaction)
    (hmem : t ∈ st.txns) (hnone : t.scheduledMeetupAt = none)
    (hnodup : (st.txns.map Transaction.id).Nodup) :
    txnById (expireTransactionsJob st now) t.id = some t := by
  have hid : findById Transaction.id t.id st.txns = some t :=
    findById_of_mem_nodup Transaction.id st.txns t hmem hnodup
  simp only [expireTransactionsJob]
  refine foldl_preserve (fun s => findById Transaction.id t.id s.txns = some t)
    expireTxn _ st ?_ hid
  intro st2 s hs hP
  have hsel := List.mem_filter.mp hs
  have hspred := hsel.2
  have hsne : t.id ≠ s.id := by
    intro hc
    have hst : s = t :=
      List.inj_on_of_nodup_map hnodup hsel.1 hmem hc.symm
    rw [hst, hnone] at hspred
    simp at hspred
  show findById Transaction.id t.id (expireTxn st2 s).txns = some t
  rw [expireTxn_txns, findById_updById_ne]
  · exact hP
  · exact fun x => rfl
  · exact hsne

/-- Witness for C10: a transaction created with a 24-hour `expiresAt` deadline
(long past at sweep time) but no scheduled meetup survives a very late sweep
untouched. -/
theorem claim_C10_witness :
    txnById (expireTransactionsJob stC10 999999999999) txnC10.id = some txnC10 :=
  claim_C10_unscheduled_never_expired stC10 999999999999 txnC10
    (by decide) (by decide) (by decide)

/-! ## C9 -/

/-- C9 (amended): `proposeMeetup` never inspects the current `meetupStatus`:
whenever it succeeds it (re)sets the status to `scheduled`, from any prior
value — including `confirmed`, so the sub-state machine is not forward-only;
`acceptMeetup` succeeds only from `scheduled` and sets `confirmed`. -/
theorem claim_C9_meetup_transitions (st st1 st2 : DB) (uid tid : Nat) (mAt : Int)
    (loc coords : String) (now : Int) (t : Transaction)
    (ht : txnById st tid = some t) :
    (proposeMeetup st uid tid mAt loc coords now = .ok st1 →
      txnById st1 tid = some { t with
        scheduledMeetupAt := some mAt, meetupLocation := some loc,
        meetupStatus := "scheduled", meetupProposedBy := some uid }) ∧
    (acceptMeetup st uid tid = .ok st2 →
      t.meetupStatus = "scheduled" ∧
      txnById st2 tid = some { t with meetupStatus := "confirmed" }) := by
  constructor
  · intro h
    simp only [proposeMeetup, ht] at h
    split at h
    · exact Except.noConfusion h
    · split at h
      · exact Except.noConfusion h
      · split at h
        · exact Except.noConfusion h
        · split at h
          · exact Except.noConfusion h
          · split at h
            · exact Except.noConfusion h
            · have hst1 := Except.ok.inj h
              subst hst1
              rw [txnById, findById_updById_self]
              · rw [show findById Transaction.id tid st.txns = some t from ht]
                rfl
              · exact fun x => rfl
  · intro h
    simp only [acceptMeetup, ht] at h
    split at h
    · exact Except.noConfusion h
    · rename_i hsched
      split at h
      · exact Except.noConfusion h
      · rename_i hsched2
        have hms : t.meetupStatus = "scheduled" := by
          by_contra hc
          exact hsched2 hc
        refine ⟨hms, ?_⟩
        have hst2 := Except.ok.inj h
        subst hst2
        rw [txnById, findById_updById_self]
        · rw [show findById Transaction.id tid st.txns = some t from ht]
          rfl
        · exact fun x => rfl

/-- Witness for C9 (amended): in `stC9` the meetup is `confirmed`; the buyer
re-proposes and the status returns to `scheduled`. -/
theorem claim_C9_witness :
    txnById stC9x 100 =
      some { (⟨100, some 20, none, none, 10, 2, 1, "90", "100", "active", "confirmed",
        some 500000, some "Park", some 1, false, none, some 86400000⟩ : Transaction) with
        scheduledMeetupAt := some 900000, meetupLocation := some "Cafe",
        meetupStatus := "scheduled", meetupProposedBy := some 2 } :=
  (claim_C9_meetup_transitions stC9 stC9x stC9 2 100 900000 "Cafe" "14.6,121.0" 0 _
    (by decide)).1 (by decide)

/-- Counterexample for C9 as stated: `proposeMeetup` on an active transaction
whose meetup is already `confirmed` succeeds and moves `meetupStatus`
backwards to `scheduled`. -/
theorem claim_C9_counterexample :
    (txnById stC9 100).map Transaction.meetupStatus = some "confirmed" ∧
    proposeMeetup stC9 2 100 900000 "Cafe" "14.6,121.0" 0 = .ok stC9x ∧
    (txnById stC9x 100).map Transaction.meetupStatus = some "scheduled" := by
  refine ⟨by decide, by decide, by decide⟩

/-! ## C7 -/

/-- C7: `markAsSold` succeeds exactly when the caller is the transaction's
seller, the meetup is `confirmed` and the transaction is `active`; from
`not_scheduled` or `scheduled` it always fails (and an error changes no
state); on success the transaction becomes `completed` with
`sellerConfirmedCompletion` set and the generated reference number recorded,
the product becomes `sold` with `soldTo` the buyer, and whichever origin
record is attached (offer, buy or bid) is marked `completed`. -/
theorem claim_C7_markAsSold (st : DB) (uid tid : Nat) (ref : String) (t : Transaction)
    (ht : txnById st tid = some t) :
    (succeeds (markAsSold st uid tid ref) = true ↔
      (uid = t.sellerId ∧ t.meetupStatus = "confirmed" ∧ t.status = "active")) ∧
    ((t.meetupStatus = "not_scheduled" ∨ t.meetupStatus = "scheduled") →
      succeeds (markAsSold st uid tid ref) = false) ∧
    (∀ st1, markAsSold st uid tid ref = .ok st1 →
      txnById st1 tid = some { t with
        status := "completed", sellerConfirmedCompletion := true,
        referenceNumber := some ref } ∧
      productById st1 t.productId =
        (productById st t.productId).map
          (fun p => { p with status := "sold", soldTo := some t.buyerId }) ∧
      (∀ oid, t.offerId = some oid →
        offerById st1 oid = (offerById st oid).map (fun o => { o with status := "completed" })) ∧
      (∀ b, t.buyId = some b →
        buyById st1 b = (buyById st b).map (fun x => { x with status := "completed" })) ∧
      (∀ b, t.bidId = some b →
        bidById st1 b = (bidById st b).map (fun x => { x with status := "completed" }))) := by
  by_cases h1 : t.sellerId = uid
  · by_cases h2 : t.meetupStatus = "confirmed"
    · by_cases h3 : t.status = "active"
      · have hres : markAsSold st uid tid ref = .ok { st with
            txns := updById Transaction.id tid (fun x => { x with
              status := "completed", sellerConfirmedCompletion := true,
              referenceNumber := some ref }) st.txns,
            products := updById Product.id t.productId (fun p => { p with
              status := "sold", soldTo := some t.buyerId }) st.products,
            offers := match t.offerId with
              | some oid => updById Offer.id oid
                  (fun o => { o with status := "completed" }) st.offers
              | none => st.offers,
            buys := match t.buyId with
              | some b => updById Buy.id b
                  (fun x => { x with status := "completed" }) st.buys
              | none => st.buys,
            bids := match t.bidId with
              | some d => updById Bid.id d
                  (fun x => { x with status := "completed" }) st.bids
              | none => st.bids } := by
          simp only [markAsSold, ht]
          rw [if_neg (by simp [h1]), if_neg (by simp [h2]), if_neg (by simp [h3])]
          rcases t.offerId with _ | oid <;> rcases t.buyId with _ | b <;>
            rcases t.bidId with _ | d <;> rfl
        refine ⟨?_, ?_, ?_⟩
        · simp [succeeds, hres, h1, h2, h3]
        · intro hbad
          rcases hbad with hbad | hbad <;> rw [hbad] at h2 <;> simp at h2
        · intro st1 hok
          rw [hres] at hok
          obtain rfl := Except.ok.inj hok
          refine ⟨?_, ?_, ?_, ?_, ?_⟩
          · rw [txnById, findById_updById_self] <;>
              first
                | exact fun x => rfl
                | (rw [show findById Transaction.id tid st.txns = some t from ht]; rfl)
          · rw [productById, findById_updById_self] <;>
              first
                | exact fun x => rfl
                | rfl
          · intro oid hoid
            simp only [offerById, hoid]
            rw [findById_updById_self] <;>
              first
                | exact fun x => rfl
                | rfl
          · intro b hb
            simp only [buyById, hb]
            rw [findById_updById_self] <;>
              first
                | exact fun x => rfl
                | rfl
          · intro d hd
            simp only [bidById, hd]
            rw [findById_updById_self] <;>
              first
                | exact fun x => rfl
                | rfl
      · refine ⟨?_, ?_, ?_⟩
        · simp [succeeds, markAsSold, ht, h1, h2, h3]
        · intro _; simp [succeeds, markAsSold, ht, h1, h2, h3]
        · intro st1 hok
          simp only [markAsSold, ht] at hok
          rw [if_neg (by simp [h1]), if_neg (by simp [h2]), if_pos (by simp [h3])] at hok
          exact Except.noConfusion hok
    · refine ⟨?_, ?_, ?_⟩
      · simp [succeeds, markAsSold, ht, h1, h2]
      · intro _; simp [succeeds, markAsSold, ht, h1, h2]
      · intro st1 hok
        simp only [markAsSold, ht] at hok
        rw [if_neg (by simp [h1]), if_pos (by simp [h2])] at hok
        exact Except.noConfusion hok
  · refine ⟨?_, ?_, ?_⟩
    · simp [succeeds, markAsSold, ht, h1]
      exact fun hc => absurd hc.symm h1
    · intro _; simp [succeeds, markAsSold, ht, h1]
    · intro st1 hok
      simp only [markAsSold, ht] at hok
      rw [if_pos (by simp [h1])] at hok
      exact Except.noConfusion hok

/-! ## C4 -/

/-- C4 (amended): on a bidding product with no prior bid and a positive
minimum increment, a bid is accepted iff its amount is at least
price + minimumBid and the difference to the starting price is an exact
multiple of minimumBid; the accepted bid is appended with status `active`.
(When `minimumBid` parses to 0 the increment checks are skipped and any
amount at or above the starting price is accepted — see the
counterexample.) -/
theorem claim_C4_first_bid (st : DB) (uid pid : Nat) (amount : String) (now : Int)
    (p : Product) (e : Int) (ms : String) (pr inc a : ℚ)
    (hp : productById st pid = some p)
    (hsale : p.saleType = "bidding")
    (hends : p.biddingEndsAt = some e) (hnow : ¬ e < now)
    (hseller : p.sellerId ≠ uid)
    (hnobids : st.bids.filter (fun b => b.productId == pid) = [])
    (hpr : parseFloat p.price = some pr)
    (hms : p.minimumBid = some ms) (hmsne : ms ≠ "")
    (hinc : parseFloat ms = some inc) (hincpos : 0 < inc)
    (hamt : parseFloat amount = some a) (hamtne : amount ≠ "") :
    (succeeds (placeBid st uid pid amount now) = true ↔
      (pr + inc ≤ a ∧ ∃ k : ℤ, a - pr = (k : ℚ) * inc)) ∧
    (∀ st1, placeBid st uid pid amount now = .ok st1 →
      st1.bids = st.bids ++ [⟨st.nextId, pid, uid, amount, "active"⟩]) := by
  have hincne : inc ≠ 0 := ne_of_gt hincpos
  by_cases h1 : a < pr
  · have hval : placeBid st uid pid amount now =
        .error ⟨"Bid amount must be at least the starting price", 400⟩ := by
      simp [placeBid, hp, hamtne, hsale, hends, hnow, hseller, hpr, hms, hmsne, hinc,
        hamt, jsLt, h1]
    refine ⟨?_, ?_⟩
    · rw [hval]
      simp only [succeeds, Bool.false_eq_true, false_iff]
      rintro ⟨hle, -⟩
      nlinarith [hincpos]
    · intro st1 hok
      rw [hval] at hok
      exact Except.noConfusion hok
  · by_cases h2 : a < pr + inc
    · have hval : placeBid st uid pid amount now =
          .error ⟨"First bid must be at least starting price plus minimum increment", 400⟩ := by
        simp [placeBid, hp, hamtne, hsale, hends, hnow, hseller, hpr, hms, hmsne, hinc,
          hamt, hnobids, selectHighest, jsLt, jsAdd, h1, h2]
      refine ⟨?_, ?_⟩
      · rw [hval]
        simp only [succeeds, Bool.false_eq_true, false_iff]
        rintro ⟨hle, -⟩
        linarith
      · intro st1 hok
        rw [hval] at hok
        exact Except.noConfusion hok
    · by_cases h3 : a - pr - inc * ((Rat.floor ((a - pr) / inc) : ℤ) : ℚ) = 0
      · have hval : placeBid st uid pid amount now = .ok (insertBid st pid uid amount) := by
          simp [placeBid, hp, hamtne, hsale, hends, hnow, hseller, hpr, hms, hmsne, hinc,
            hamt, hnobids, selectHighest, jsLt, jsLe, jsAdd, jsSub, jsMod, jsPos, jsNeZero,
            h1, h2, hincne, h3]
        refine ⟨?_, ?_⟩
        · rw [hval]
          simp only [succeeds, eq_self_iff_true, true_iff]
          refine ⟨by linarith, ?_⟩
          exact (jsMod_eq_zero_iff (a - pr) inc hincne).mp (by simp [jsMod, hincne, h3])
        · intro st1 hok
          rw [hval] at hok
          obtain rfl := Except.ok.inj hok
          rfl
      · have hval : placeBid st uid pid amount now =
            .error ⟨"Bid must follow minimum increment from starting price", 400⟩ := by
          simp [placeBid, hp, hamtne, hsale, hends, hnow, hseller, hpr, hms, hmsne, hinc,
            hamt, hnobids, selectHighest, jsLt, jsLe, jsAdd, jsSub, jsMod, jsPos, jsNeZero,
            h1, h2, hincpos, hincne, h3]
        refine ⟨?_, ?_⟩
        · rw [hval]
          simp only [succeeds, Bool.false_eq_true, false_iff]
          rintro ⟨-, hmult⟩
          exact h3 (by
            have := (jsMod_eq_zero_iff (a - pr) inc hincne).mpr hmult
            simpa [jsMod, hincne] using this)
        · intro st1 hok
          rw [hval] at hok
          exact Except.noConfusion hok

/-- Witness for C4: price 100, increment 10, no prior bids — a first bid of
110 is accepted (and recorded `active`), a first bid of 105 is rejected. -/
theorem claim_C4_witness :
    succeeds (placeBid stC4w 2 10 "110" 0) = true ∧
    succeeds (placeBid stC4w 2 10 "105" 0) = false := by
  constructor
  · exact (claim_C4_first_bid stC4w 2 10 "110" 0
      ⟨10, 1, "100", "bidding", some "10", some 1000000, "active", none⟩ 1000000 "10"
      100 10 110 (by decide) rfl rfl (by decide) (by decide) (by decide)
      (by with_unfolding_all rfl) rfl (by decide) (by with_unfolding_all rfl)
      (by with_unfolding_all decide) (by with_unfolding_all rfl) (by decide)).1.mpr
      ⟨by with_unfolding_all decide, 1, by with_unfolding_all decide⟩
  · have hiff := (claim_C4_first_bid stC4w 2 10 "105" 0
      ⟨10, 1, "100", "bidding", some "10", some 1000000, "active", none⟩ 1000000 "10"
      100 10 105 (by decide) rfl rfl (by decide) (by decide) (by decide)
      (by with_unfolding_all rfl) rfl (by decide) (by with_unfolding_all rfl)
      (by with_unfolding_all decide) (by with_unfolding_all rfl) (by decide)).1
    by_cases hs : succeeds (placeBid stC4w 2 10 "105" 0) = true
    · obtain ⟨hle, -⟩ := hiff.mp hs
      norm_num at hle
    · simpa using hs

/-- Counterexample for C4 as stated: with `minimumBid` "0" (price 100, no
prior bids) the code accepts a first bid of 105, although 105 − 100 = 5 is
not an exact multiple of the minimum increment 0 (the claimed iff would
reject it: the JS increment check `5 % 0 !== 0` is true, as the second
conjunct records). -/
theorem claim_C4_counterexample :
    parseFloat "0" = some 0 ∧
    succeeds (placeBid stC4 2 10 "105" 0) = true ∧
    jsNeZero (jsMod (jsSub (parseFloat "105") (parseFloat "100")) (parseFloat "0")) = true :=
  ⟨by with_unfolding_all rfl, by with_unfolding_all rfl, by with_unfolding_all rfl⟩

/-! ## C3 -/

/-- C3 (amended): on a bidding product with a current high bid (the row the
`ORDER BY bid_amount DESC LIMIT 1` query returns, whose parsed amount is at
least the starting price) and a positive minimum increment, a bid is accepted
iff its amount strictly exceeds the high bid's amount and the difference is
an exact multiple of the increment (such a difference is automatically at
least the increment); on acceptance the high-bid row is set to `outbid` and
the new bid is appended with status `active`.  (When `minimumBid` parses to
0, the JS check `difference % 0 !== 0` is true — `NaN !== 0` — so every bid
is rejected; see the counterexample.) -/
theorem claim_C3_high_bid (st : DB) (uid pid : Nat) (amount : String) (now : Int)
    (p : Product) (e : Int) (ms : String) (hb : Bid) (pr cur inc a : ℚ)
    (hp : productById st pid = some p)
    (hsale : p.saleType = "bidding")
    (hends : p.biddingEndsAt = some e) (hnow : ¬ e < now)
    (hseller : p.sellerId ≠ uid)
    (hhb : selectHighest (st.bids.filter (fun b => b.productId == pid)) = some hb)
    (hcur : parseFloat hb.bidAmount = some cur)
    (hprle : pr ≤ cur)
    (hpr : parseFloat p.price = some pr)
    (hms : p.minimumBid = some ms) (hmsne : ms ≠ "")
    (hinc : parseFloat ms = some inc) (hincpos : 0 < inc)
    (hamt : parseFloat amount = some a) (hamtne : amount ≠ "") :
    (succeeds (placeBid st uid pid amount now) = true ↔
      (cur < a ∧ ∃ k : ℤ, a - cur = (k : ℚ) * inc)) ∧
    (∀ st1, placeBid st uid pid amount now = .ok st1 →
      st1.bids = updById Bid.id hb.id (fun b => { b with status := "outbid" }) st.bids
        ++ [⟨st.nextId, pid, uid, amount, "active"⟩]) := by
  have hincne : inc ≠ 0 := ne_of_gt hincpos
  by_cases h1 : a ≤ cur
  · have hrhs : ¬(cur < a ∧ ∃ k : ℤ, a - cur = (k : ℚ) * inc) := by
      rintro ⟨hgt, -⟩
      linarith
    by_cases h0 : a < pr
    · have hval : placeBid st uid pid amount now =
          .error ⟨"Bid amount must be at least the starting price", 400⟩ := by
        simp [placeBid, hp, hamtne, hsale, hends, hnow, hseller, hpr, hms, hmsne, hinc,
          hamt, jsLt, h0]
      refine ⟨?_, ?_⟩
      · rw [hval]
        simp only [succeeds, Bool.false_eq_true, false_iff]
        exact hrhs
      · intro st1 hok
        rw [hval] at hok
        exact Except.noConfusion hok
    · have hval : placeBid st uid pid amount now =
          .error ⟨"Bid amount must be higher than current highest bid", 400⟩ := by
        simp [placeBid, hp, hamtne, hsale, hends, hnow, hseller, hpr, hms, hmsne, hinc,
          hamt, hhb, hcur, jsLt, jsLe, h0, h1]
      refine ⟨?_, ?_⟩
      · rw [hval]
        simp only [succeeds, Bool.false_eq_true, false_iff]
        exact hrhs
      · intro st1 hok
        rw [hval] at hok
        exact Except.noConfusion hok
  · have hgt : cur < a := not_le.mp h1
    have hnotlt : ¬(a < pr) := by linarith
    by_cases h2 : a - cur < inc
    · have hval : placeBid st uid pid amount now =
          .error ⟨"Bid must be at least the minimum increment higher than current bid", 400⟩ := by
        simp [placeBid, hp, hamtne, hsale, hends, hnow, hseller, hpr, hms, hmsne, hinc,
          hamt, hhb, hcur, jsLt, jsLe, jsSub, hnotlt, h1, h2]
      refine ⟨?_, ?_⟩
      · rw [hval]
        simp only [succeeds, Bool.false_eq_true, false_iff]
        rintro ⟨-, k, hk⟩
        have := le_of_pos_multiple (a - cur) inc hincpos (by linarith) ⟨k, hk⟩
        linarith
      · intro st1 hok
        rw [hval] at hok
        exact Except.noConfusion hok
    · by_cases h3 : a - cur - inc * ((Rat.floor ((a - cur) / inc) : ℤ) : ℚ) = 0
      · have hval : placeBid st uid pid amount now =
            .ok (insertBid
              { st with
                bids := updById Bid.id hb.id (fun b => { b with status := "outbid" }) st.bids }
              pid uid amount) := by
          simp [placeBid, hp, hamtne, hsale, hends, hnow, hseller, hpr, hms, hmsne, hinc,
            hamt, hhb, hcur, jsLt, jsLe, jsSub, jsMod, jsNeZero, hnotlt, h1, h2, hincne, h3]
        refine ⟨?_, ?_⟩
        · rw [hval]
          simp only [succeeds, eq_self_iff_true, true_iff]
          refine ⟨hgt, ?_⟩
          exact (jsMod_eq_zero_iff (a - cur) inc hincne).mp (by simp [jsMod, hincne, h3])
        · intro st1 hok
          rw [hval] at hok
          obtain rfl := Except.ok.inj hok
          rfl
      · have hval : placeBid st uid pid amount now =
            .error ⟨"Bid must follow minimum increment", 400⟩ := by
          simp [placeBid, hp, hamtne, hsale, hends, hnow, hseller, hpr, hms, hmsne, hinc,
            hamt, hhb, hcur, jsLt, jsLe, jsSub, jsMod, jsNeZero, hnotlt, h1, h2, hincne, h3]
        refine ⟨?_, ?_⟩
        · rw [hval]
          simp only [succeeds, Bool.false_eq_true, false_iff]
          rintro ⟨-, hmult⟩
          exact h3 (by
            have := (jsMod_eq_zero_iff (a - cur) inc hincne).mpr hmult
            simpa [jsMod, hincne] using this)
        · intro st1 hok
          rw [hval] at hok
          exact Except.noConfusion hok

/-- Witness for C3: with high bid 110 and increment 10, a bid of 120 is
accepted (the 110 bid is marked `outbid`, the 120 bid is recorded `active`)
and a bid of 115 is rejected. -/
theorem claim_C3_witness :
    succeeds (placeBid stC3w 3 10 "120" 0) = true ∧
    succeeds (placeBid stC3w 3 10 "115" 0) = false := by
  constructor
  · exact (claim_C3_high_bid stC3w 3 10 "120" 0
      ⟨10, 1, "100", "bidding", some "10", some 1000000, "active", none⟩ 1000000 "10"
      ⟨30, 10, 2, "110", "active"⟩ 100 110 10 120
      (by decide) rfl rfl (by decide) (by decide) (by with_unfolding_all rfl)
      (by with_unfolding_all rfl) (by with_unfolding_all decide)
      (by with_unfolding_all rfl) rfl (by decide) (by with_unfolding_all rfl)
      (by with_unfolding_all decide) (by with_unfolding_all rfl) (by decide)).1.mpr
      ⟨by with_unfolding_all decide, 1, by with_unfolding_all decide⟩
  · have hiff := (claim_C3_high_bid stC3w 3 10 "115" 0
      ⟨10, 1, "100", "bidding", some "10", some 1000000, "active", none⟩ 1000000 "10"
      ⟨30, 10, 2, "110", "active"⟩ 100 110 10 115
      (by decide) rfl rfl (by decide) (by decide) (by with_unfolding_all rfl)
      (by with_unfolding_all rfl) (by with_unfolding_all decide)
      (by with_unfolding_all rfl) rfl (by decide) (by with_unfolding_all rfl)
      (by with_unfolding_all decide) (by with_unfolding_all rfl) (by decide)).1
    by_cases hs : succeeds (placeBid stC3w 3 10 "115" 0) = true
    · obtain ⟨-, k, hk⟩ := hiff.mp hs
      have h5 : (5 : ℚ) = (k : ℚ) * 10 := by linarith
      have := le_of_pos_multiple 5 10 (by norm_num) (by norm_num) ⟨k, h5⟩
      norm_num at this
    · simpa using hs

/-- Counterexample for C3 as stated: with `minimumBid` "0" and a current high
bid of 110, a bid of 120 strictly exceeds the high bid (first conjunct), and
the claim's `minimumBid > 0` proviso does not apply, so the claim says the
bid is accepted — but the code rejects it: `difference % 0` is `NaN`, which
is `!== 0`. -/
theorem claim_C3_counterexample :
    parseFloat "0" = some 0 ∧
    jsLt (parseFloat "110") (parseFloat "120") = true ∧
    placeBid stC3 3 10 "120" 0 = .error ⟨"Bid must follow minimum increment", 400⟩ :=
  ⟨by with_unfolding_all rfl, by with_unfolding_all rfl, by with_unfolding_all rfl⟩

/-! ## C6 -/

/-- C6: the auction-close sweep is idempotent per product.  For a selected
bidding product (active, ended) with a highest-bid row whose bidder exists
and no transaction yet, the first sweep sets the product `in_transaction`
and creates exactly one transaction for it; because its status is no longer
`active`, the second sweep's selection does not pick it up, so the second
run leaves the product's row unchanged and exactly one transaction for the
product exists in total. -/
theorem claim_C6_sweep_idempotent (st : DB) (now now2 : Int) (p : Product) (hb : Bid)
    (hmem : p ∈ st.products)
    (hsel : expiredBiddingProduct now p = true)
    (hhb : selectHighest (st.bids.filter (fun b => b.productId == p.id)) = some hb)
    (huser : st.users.contains hb.bidderId = true)
    (hnotx : st.txns.filter (fun t => t.productId == p.id) = [])
    (hnodupP : (st.products.map Product.id).Nodup)
    (hnodupB : (st.bids.map Bid.id).Nodup) :
    productById (expireBidsJob st now) p.id = some { p with status := "in_transaction" } ∧
    ((expireBidsJob st now).txns.filter (fun t => t.productId == p.id)).length = 1 ∧
    productById (expireBidsJob (expireBidsJob st now) now2) p.id =
      productById (expireBidsJob st now) p.id ∧
    ((expireBidsJob (expireBidsJob st now) now2).txns.filter
        (fun t => t.productId == p.id)).length = 1 := by
  have hpfil : p ∈ st.products.filter (expiredBiddingProduct now) :=
    List.mem_filter.mpr ⟨hmem, hsel⟩
  obtain ⟨l₁, l₂, hdec⟩ := List.append_of_mem hpfil
  have hnodupFil : ((st.products.filter (expiredBiddingProduct now)).map Product.id).Nodup :=
    hnodupP.sublist ((List.filter_sublist _).map _)
  have hneq : ∀ q, q ∈ l₁ ∨ q ∈ l₂ → q.id ≠ p.id := by
    intro q hq hc
    rw [hdec, List.map_append, List.map_cons] at hnodupFil
    have hmid := List.nodup_middle.mp hnodupFil
    have hnotmem := (List.nodup_cons.mp hmid).1
    apply hnotmem
    rw [← hc]
    rcases hq with h | h
    · exact List.mem_append.mpr (Or.inl (List.mem_map_of_mem _ h))
    · exact List.mem_append.mpr (Or.inr (List.mem_map_of_mem _ h))
  have hfindst : findById Product.id p.id st.products = some p :=
    findById_of_mem_nodup Product.id st.products p hmem hnodupP
  have hidmap : ∀ (n : Int) (s : DB),
      (expireBidsJob s n).products.map Product.id = s.products.map Product.id := by
    intro n s
    simp only [expireBidsJob]
    refine foldl_preserve
      (fun s2 => s2.products.map Product.id = s.products.map Product.id)
      (processExpiredProduct n) _ s ?_ rfl
    intro s2 q _ hP
    exact (processExpiredProduct_products_idmap n s2 q).trans hP
  have hfirst : findById Product.id p.id (expireBidsJob st now).products =
      some { p with status := "in_transaction" } ∧
      ((expireBidsJob st now).txns.filter (fun t => t.productId == p.id)).length = 1 := by
    simp only [expireBidsJob]
    rw [hdec, List.foldl_append, List.foldl_cons]
    refine foldl_preserve
      (fun s => findById Product.id p.id s.products =
          some { p with status := "in_transaction" } ∧
        (s.txns.filter (fun t => t.productId == p.id)).length = 1)
      (processExpiredProduct now) l₂ _ ?_ ?_
    · intro s2 q hq hP
      obtain ⟨o4, o5⟩ := processExpiredProduct_other now p.id s2 q (hneq q (Or.inr hq))
      exact ⟨o4.trans hP.1, by rw [o5]; exact hP.2⟩
    · have hinv := foldl_preserve
        (fun s => s.users = st.users ∧
          s.bids.map Bid.id = st.bids.map Bid.id ∧
          s.bids.filter (fun b => b.productId == p.id) =
            st.bids.filter (fun b => b.productId == p.id) ∧
          findById Product.id p.id s.products = findById Product.id p.id st.products ∧
          s.txns.filter (fun t => t.productId == p.id) =
            st.txns.filter (fun t => t.productId == p.id))
        (processExpiredProduct now) l₁ st
        (fun s2 q hq hP => by
          obtain ⟨i1, i2, i3, i4, i5⟩ := hP
          obtain ⟨v1, v2, v3, v4, v5⟩ :=
            processExpiredProduct_inv now p.id s2 q (hneq q (Or.inl hq))
              (by rw [i2]; exact hnodupB)
          exact ⟨v1.trans i1, v2.trans i2, v3.trans i3, v4.trans i4, v5.trans i5⟩)
        ⟨rfl, rfl, rfl, rfl, rfl⟩
      obtain ⟨i1, i2, i3, i4, i5⟩ := hinv
      obtain ⟨hA, hB⟩ := processExpiredProduct_self now
        (List.foldl (processExpiredProduct now) st l₁) p hb
        (by rw [i3]; exact hhb) (by rw [i1]; exact huser)
      constructor
      · rw [hA, i4, hfindst]
        rfl
      · rw [hB, i5, hnotx]
        rfl
  have hsecond : ∀ s : DB,
      findById Product.id p.id s.products = some { p with status := "in_transaction" } →
      (s.txns.filter (fun t => t.productId == p.id)).length = 1 →
      (s.products.map Product.id).Nodup →
      findById Product.id p.id (expireBidsJob s now2).products =
          some { p with status := "in_transaction" } ∧
        ((expireBidsJob s now2).txns.filter (fun t => t.productId == p.id)).length = 1 := by
    intro s hrow htx hnodup
    simp only [expireBidsJob]
    refine foldl_preserve
      (fun s2 => findById Product.id p.id s2.products =
          some { p with status := "in_transaction" } ∧
        (s2.txns.filter (fun t => t.productId == p.id)).length = 1)
      (processExpiredProduct now2) _ s ?_ ⟨hrow, htx⟩
    intro s2 q hq hP
    have hqne : q.id ≠ p.id := by
      intro hc
      have hqmem := (List.mem_filter.mp hq).1
      have hqsel := (List.mem_filter.mp hq).2
      have hfind : findById Product.id q.id s.products = some q :=
        findById_of_mem_nodup Product.id s.products q hqmem hnodup
      rw [hc, hrow] at hfind
      obtain rfl := Option.some.inj hfind
      simp [expiredBiddingProduct] at hqsel
    obtain ⟨o4, o5⟩ := processExpiredProduct_other now2 p.id s2 q hqne
    exact ⟨o4.trans hP.1, by rw [o5]; exact hP.2⟩
  have hnodupP1 : ((expireBidsJob st now).products.map Product.id).Nodup := by
    rw [hidmap now st]
    exact hnodupP
  have hsec := hsecond (expireBidsJob st now) hfirst.1 hfirst.2 hnodupP1
  exact ⟨hfirst.1, hfirst.2, hsec.1.trans hfirst.1.symm, hsec.2⟩

/-- Witness for C6: the auction state of C5 (bids 90 and 100, auction ended)
swept at t = 2000000 and again at t = 3000000: the product is
`in_transaction` after the first run and exactly one transaction for it
exists after the second. -/
theorem claim_C6_witness :
    productById (expireBidsJob stC5c 2000000) 10 =
      some ⟨10, 1, "80", "bidding", some "10", some 1000000, "in_transaction", none⟩ ∧
    ((expireBidsJob (expireBidsJob stC5c 2000000) 3000000).txns.filter
        (fun t => t.productId == 10)).length = 1 := by
  have h := claim_C6_sweep_idempotent stC5c 2000000 3000000
    ⟨10, 1, "80", "bidding", some "10", some 1000000, "active", none⟩
    ⟨100, 10, 2, "90", "outbid"⟩
    (by decide) (by decide) (by decide) (by decide) (by decide) (by decide) (by decide)
  exact ⟨h.1, h.2.2.2⟩

/-! ## C5 -/

/-- C5: the claim is right about the intended behaviour and the code is
wrong.  `bid_amount` is a `varchar` column, so the sweep's
`ORDER BY bid_amount DESC LIMIT 1` compares amounts as strings.  In the
reachable state built here by two legitimate `placeBid` calls (90, then a
valid raise to 100), the sweep at auction close picks the 90 bid as "the
highest bid" (as a string "90" &gt; "100"), marks it `won`, marks the
numerically highest bid `lost`, and creates the transaction with
`agreedPrice` 90 for bidder 2 — although 90 &lt; 100, as the last conjunct
records. -/
theorem claim_C5_wrong_winner :
    placeBid stC5 2 10 "90" 0 = .ok stC5b ∧
    placeBid stC5b 3 10 "100" 0 = .ok stC5c ∧
    expireBidsJob stC5c 2000000 = stC5d ∧
    (bidById stC5d 100).map Bid.bidAmount = some "90" ∧
    (bidById stC5d 100).map Bid.status = some "won" ∧
    (bidById stC5d 101).map Bid.bidAmount = some "100" ∧
    (bidById stC5d 101).map Bid.status = some "lost" ∧
    stC5d.txns.map Transaction.agreedPrice = ["90"] ∧
    stC5d.txns.map Transaction.buyerId = [2] ∧
    jsLt (parseFloat "90") (parseFloat "100") = true :=
  ⟨by with_unfolding_all rfl, by with_unfolding_all rfl, by with_unfolding_all rfl,
   by with_unfolding_all rfl, by with_unfolding_all rfl, by with_unfolding_all rfl,
   by with_unfolding_all rfl, by with_unfolding_all rfl, by with_unfolding_all rfl,
   by with_unfolding_all rfl⟩

/-! ## C1 -/

/-- C1 (amended): accepting a pending offer as its seller succeeds, marks the
offer `accepted`, and creates exactly one transaction whose origin pointer is
that offer, whose `agreedPrice` is the offer amount and whose `expiresAt` is
24 hours out — but the product row is untouched: `acceptOffer` performs no
product write, so the product's status does not transition to
`in_transaction`. -/
theorem claim_C1_acceptOffer (st : DB) (uid oid : Nat) (now : Int) (o : Offer)
    (ho : offerById st oid = some o) (hsell : o.sellerId = uid)
    (hpend : o.status = "pending") (p : Product)
    (hp : productById st o.productId = some p) :
    ∃ st1, acceptOffer st uid oid now = .ok st1 ∧
      offerById st1 oid = some { o with status := "accepted" } ∧
      st1.txns = st.txns ++
        [⟨st.nextId, some o.id, none, none, o.productId, o.buyerId, o.sellerId,
          o.offerAmount, p.price, "active", "not_scheduled", none, none, none,
          false, none, some (now + 86400000)⟩] ∧
      st1.products = st.products := by
  have hres : ∃ cv, acceptOffer st uid oid now = .ok { st with
      offers := updById Offer.id oid (fun x => { x with status := "accepted" }) st.offers,
      txns := st.txns ++
        [⟨st.nextId, some o.id, none, none, o.productId, o.buyerId, o.sellerId,
          o.offerAmount, p.price, "active", "not_scheduled", none, none, none,
          false, none, some (now + 86400000)⟩],
      convs := cv,
      nextId := st.nextId + 1 } := by
    simp only [acceptOffer, ho]
    rw [if_neg (by simp [hsell]), if_neg (by simp [hpend])]
    simp only [hp]
    cases hfind : List.find? (fun c => c.offerId == some oid) st.convs with
    | none => simp only [hfind]; exact ⟨st.convs, rfl⟩
    | some conv => simp only [hfind]; exact ⟨_, rfl⟩
  obtain ⟨cv, hres⟩ := hres
  refine ⟨_, hres, ?_, rfl, rfl⟩
  rw [offerById, findById_updById_self] <;>
    first
      | exact fun x => rfl
      | (rw [show findById Offer.id oid st.offers = some o from ho]; rfl)

/-- Witness for C1 (amended): the concrete acceptance in `stC1`. -/
theorem claim_C1_witness :
    succeeds (acceptOffer stC1 1 20 0) = true := by
  obtain ⟨st1, hok, -, -, -⟩ :=
    claim_C1_acceptOffer stC1 1 20 0 ⟨20, 10, 2, 1, "90", "pending"⟩ (by decide) rfl rfl
      ⟨10, 1, "100", "negotiable", none, none, "active", none⟩ (by decide)
  rw [hok]
  rfl

/-- Counterexample for C1 as stated: the seller accepts the pending offer on
the `active` product of `stC1`; the call succeeds and creates the
transaction, but the product's status afterwards is still `active`, not
`in_transaction`. -/
theorem claim_C1_counterexample :
    acceptOffer stC1 1 20 0 = .ok stC1x ∧
    (productById stC1 10).map Product.status = some "active" ∧
    (productById stC1x 10).map Product.status = some "active" :=
  ⟨by decide, by decide, by decide⟩

/-! ## C2 -/

/-- C2 (amended): `confirmBuy` is blocked by the `Product.status` guard: on a
product whose status is `in_transaction` it fails (creating nothing).
`acceptOffer` has no such guard — see the counterexample, where accepting a
second pending offer on a product with an active transaction produces a
second active transaction on the same product. -/
theorem claim_C2_confirmBuy_guard (st : DB) (uid bid : Nat) (now : Int) (b : Buy)
    (hb : buyById st bid = some b) (hsell : b.sellerId = uid)
    (hpend : b.status = "pending") (p : Product)
    (hp : productById st b.productId = some p)
    (hstat : p.status = "in_transaction") :
    confirmBuy st uid bid now = .error ⟨"Product is not available", 400⟩ := by
  simp only [confirmBuy, hb]
  rw [if_neg (by simp [hsell]), if_neg (by simp [hpend])]
  simp only [hp]
  rw [if_pos (by simp [hstat])]

/-- Witness for C2 (amended): the pending buy on the `in_transaction` product
of `stC2b` is rejected. -/
theorem claim_C2_witness :
    confirmBuy stC2b 1 40 0 = .error ⟨"Product is not available", 400⟩ :=
  claim_C2_confirmBuy_guard stC2b 1 40 0 ⟨40, 10, 3, 1, "100", "pending"⟩
    (by decide) rfl rfl ⟨10, 1, "100", "fixed", none, none, "in_transaction", none⟩
    (by decide) rfl

/-- Counterexample for C2 as stated: in `stC2` the product is
`in_transaction` with one active transaction, yet the seller can accept the
second pending offer; the call succeeds and afterwards two active
transactions reference the product. -/
theorem claim_C2_counterexample :
    (productById stC2 10).map Product.status = some "in_transaction" ∧
    (activeTxnsFor stC2 10).length = 1 ∧
    (acceptOffer stC2 1 20 0).map (fun s => (activeTxnsFor s 10).length) = .ok 2 :=
  ⟨by decide, by decide, by decide⟩

/-! ## C8 -/

/-- C8: on an active transaction with a scheduled meetup, a participant's
`cancelTransaction` always fails with the conflict error from one hour before
`scheduledMeetupAt` onwards (an error changes no state); invoked more than one
hour before the meetup it always succeeds, sets the transaction's status to
`cancelled_by_buyer` or `cancelled_by_seller` according to the caller,
propagates cancellation to the attached origin record, and returns the
product's status to `active`. -/
theorem claim_C8_cancelTransaction (st : DB) (uid tid : Nat) (reason custom : String)
    (now : Int) (t : Transaction) (m : Int)
    (ht : txnById st tid = some t) (hstatus : t.status = "active")
    (hsched : t.scheduledMeetupAt = some m)
    (hparty : t.buyerId = uid ∨ t.sellerId = uid)
    (hreason : reason ≠ "") :
    (m - 3600000 ≤ now →
      cancelTransaction st uid tid reason custom now =
        .error ⟨"Cannot cancel transaction within 1 hour of scheduled meetup", 400⟩) ∧
    (now < m - 3600000 →
      ∃ st1, cancelTransaction st uid tid reason custom now = .ok st1 ∧
        txnById st1 tid = some { t with
          status := if t.buyerId = uid then "cancelled_by_buyer" else "cancelled_by_seller" } ∧
        productById st1 t.productId =
          (productById st t.productId).map (fun p => { p with status := "active" }) ∧
        (∀ oid, t.offerId = some oid →
          offerById st1 oid = (offerById st oid).map (fun o => { o with status := "cancelled" })) ∧
        (∀ b, t.buyId = some b →
          buyById st1 b = (buyById st b).map (fun x => { x with
            status := if t.buyerId = uid then "cancelled_by_buyer" else "cancelled_by_seller" })) ∧
        (∀ d, t.bidId = some d →
          bidById st1 d = (bidById st d).map (fun x => { x with status := "cancelled" }))) := by
  have hpartyneg : ¬(t.buyerId ≠ uid ∧ t.sellerId ≠ uid) := by
    rcases hparty with h | h <;> simp [h]
  constructor
  · intro hnow
    simp only [cancelTransaction, ht, hsched]
    rw [if_neg hreason, if_neg hpartyneg, if_neg (by simp [hstatus]),
      if_pos (by simp only [decide_eq_true_eq]; omega)]
  · intro hnow
    have hres : cancelTransaction st uid tid reason custom now = .ok { st with
        txns := updById Transaction.id tid (fun x => { x with
          status := if t.buyerId = uid then "cancelled_by_buyer" else "cancelled_by_seller" }) st.txns,
        offers := match t.offerId with
          | some oid => updById Offer.id oid
              (fun o => { o with status := "cancelled" }) st.offers
          | none => st.offers,
        buys := match t.buyId with
          | some b => updById Buy.id b (fun x => { x with
              status := if t.buyerId = uid then "cancelled_by_buyer" else "cancelled_by_seller" }) st.buys
          | none => st.buys,
        bids := match t.bidId with
          | some d => updById Bid.id d
              (fun x => { x with status := "cancelled" }) st.bids
          | none => st.bids,
        products := updById Product.id t.productId
          (fun p => { p with status := "active" }) st.products } := by
      simp only [cancelTransaction, ht, hsched]
      rw [if_neg hreason, if_neg hpartyneg, if_neg (by simp [hstatus]),
        if_neg (by simp only [decide_eq_true_eq]; omega)]
      rcases t.offerId with _ | oid <;> rcases t.buyId with _ | b <;>
        rcases t.bidId with _ | d <;> rfl
    refine ⟨_, hres, ?_, ?_, ?_, ?_, ?_⟩
    · rw [txnById, findById_updById_self] <;>
        first
          | exact fun x => rfl
          | (rw [show findById Transaction.id tid st.txns = some t from ht]; rfl)
    · rw [productById, findById_updById_self] <;>
        first
          | exact fun x => rfl
          | rfl
    · intro oid hoid
      simp only [offerById, hoid]
      rw [findById_updById_self] <;>
        first
          | exact fun x => rfl
          | rfl
    · intro b hb
      simp only [buyById, hb]
      rw [findById_updById_self] <;>
        first
          | exact fun x => rfl
          | rfl
    · intro d hd
      simp only [bidById, hd]
      rw [findById_updById_self] <;>
        first
          | exact fun x => rfl
          | rfl

/-- Witness for C8: with the meetup at t = 10000000, the buyer's cancellation
at t = 9000000 (inside the one-hour window) fails with the conflict error,
while at t = 0 it succeeds. -/
theorem claim_C8_witness :
    cancelTransaction stC8 2 100 "changed_mind" "" 9000000 =
      .error ⟨"Cannot cancel transaction within 1 hour of scheduled meetup", 400⟩ ∧
    succeeds (cancelTransaction stC8 2 100 "changed_mind" "" 0) = true := by
  constructor
  · exact (claim_C8_cancelTransaction stC8 2 100 "changed_mind" "" 9000000 txnC8 10000000
      (by decide) (by decide) (by decide) (Or.inl (by decide)) (by decide)).1 (by decide)
  · obtain ⟨st1, hok, -, -, -, -, -⟩ :=
      (claim_C8_cancelTransaction stC8 2 100 "changed_mind" "" 0 txnC8 10000000
        (by decide) (by decide) (by decide) (Or.inl (by decide)) (by decide)).2 (by decide)
    rw [hok]
    rfl

/-- Witness for C7: the seller of a confirmed active transaction marks it
sold; the same call from meetup status `scheduled` fails. -/
theorem claim_C7_witness :
    succeeds (markAsSold stC7 1 100 "REF123456789") = true ∧
    succeeds (markAsSold stC8 1 100 "REF123456789") = false :=
  ⟨(claim_C7_markAsSold stC7 1 100 "REF123456789" txnC7 (by decide)).1.mpr
      (by refine ⟨rfl, rfl, rfl⟩),
   (claim_C7_markAsSold stC8 1 100 "REF123456789" txnC8 (by decide)).2.1
      (Or.inr rfl)⟩

end Sellio
